import Mathlib

/-
Shallow embedding of the PawVision playback orchestrator (Python sources under
src/pawvision/) for checking the natural-language specification against the
code.  Timestamps are rationals (seconds); wall-clock times of day are natural
numbers (minutes since midnight, matching TimeParser.time_to_minutes).
Python floats are modelled as rationals, Python `None` as `Option.none`.
-/

namespace PawVision

/-! ## time_utils.py — TimeParser -/

/-- Embedding of `TimeParser.is_time_in_range` (src/pawvision/time_utils.py,
lines 86-117) at the level of parsed minutes-since-midnight values.
`none` models an unset (`None`) bound: the source returns `False` before any
comparison.  For non-`None` strings `parse_to_minutes` always yields a number
(invalid strings default to 0:00), so the two `None` checks of the source
collapse onto the `Option` pattern match. -/
def is_time_in_range (start_minutes end_minutes : Option Nat)
    (current_minutes : Nat) : Bool :=
  match start_minutes, end_minutes with
  | none, _ => false
  | _, none => false
  | some s, some e =>
    if s < e then
      -- Normal range (e.g., 9:00-17:30)
      decide (s ≤ current_minutes) && decide (current_minutes < e)
    else
      -- Overnight range (e.g., 22:30-6:15)
      decide (current_minutes ≥ s) || decide (current_minutes < e)

/-! ## database.py — VideoEntry -/

/-- The fields of `VideoEntry` (src/pawvision/database.py) that playback uses. -/
structure VideoEntry where
  path : String
  custom_start_time : Rat := 0
  custom_end_time : Option Rat := none
  duration : Option Rat := none
  deriving Repr, DecidableEq

/-- Python `a or b` on an optional float `a`: `None` and `0.0` are falsy. -/
def pyOrQ (a : Option Rat) (b : Rat) : Rat :=
  match a with
  | none => b
  | some x => if x = 0 then b else x

/-- Embedding of `VideoEntry.get_effective_duration`
(src/pawvision/database.py, lines 42-53). -/
def get_effective_duration (v : VideoEntry) : Option Rat :=
  match v.duration with
  | none => none
  | some d =>
    let start := max 0 v.custom_start_time
    let e := min d (pyOrQ v.custom_end_time d)
    if e ≤ start then some 0 else some (e - start)

/-! ## video_player.py — VideoPlayer state and operations -/

/-- The configuration fields consulted by the player
(src/pawvision/config.py).  Night-mode bounds are stored parsed to minutes
since midnight. -/
structure Config where
  playback_duration_minutes : Rat
  post_playback_cooldown_minutes : Rat
  volume : Int
  night_mode_start : Option Nat
  night_mode_end : Option Nat
  deriving Repr, DecidableEq

/-- The mutable session state of `VideoPlayer`
(src/pawvision/video_player.py, lines 126-131).  `current_process` models the
subprocess handle: `none` = no process was ever spawned, `some true` = handle
whose `poll()` is `None` (alive), `some false` = handle of an exited process.
`monitor_on` tracks the external display driven by
`turn_monitor_on`/`turn_monitor_off`. -/
structure PlayerState where
  current_process : Option Bool
  current_video : Option String
  last_playback_end : Option Rat
  video_start_time : Option Rat
  monitor_on : Bool
  deriving Repr, DecidableEq

/-- Embedding of `VideoPlayer.is_playing` (lines 366-370):
`current_process is not None and current_process.poll() is None`. -/
def is_playing (st : PlayerState) : Bool :=
  match st.current_process with
  | some alive => alive
  | none => false

/-- Embedding of `VideoPlayer.is_in_cooldown` (lines 372-379). -/
def is_in_cooldown (cfg : Config) (st : PlayerState) (now : Rat) : Bool :=
  match st.last_playback_end with
  | none => false
  | some t =>
    let cooldown_seconds := cfg.post_playback_cooldown_minutes * 60
    decide (now - t < cooldown_seconds)

/-- Embedding of `VideoPlayer.can_start_video` (lines 381-383). -/
def can_start_video (cfg : Config) (st : PlayerState) (now : Rat) : Bool :=
  !is_playing st && !is_in_cooldown cfg st now

/-- Embedding of `VideoPlayer.is_night_mode` (lines 323-328), with the two
configured HH:MM strings already parsed to minutes. -/
def is_night_mode (cfg : Config) (now_minutes : Nat) : Bool :=
  is_time_in_range cfg.night_mode_start cfg.night_mode_end now_minutes

/-- A `record_video_viewing` call made to the statistics manager
(video id, viewed seconds, end reason). -/
structure ViewingEvent where
  video : String
  duration : Rat
  reason : String
  deriving Repr, DecidableEq

/-- The outcome of `stop_video` / `_stop_after_timeout`: the return value,
the state afterwards, and the viewing event recorded (if any). -/
structure StopResult where
  stopped : Bool
  state : PlayerState
  event : Option ViewingEvent
  deriving Repr, DecidableEq

/-- Python truthiness of `self.current_video` (an optional string):
`None` and the empty string are falsy. -/
def pyTruthyStr (s : Option String) : Bool :=
  match s with
  | none => false
  | some v => v ≠ ""

/-- Python truthiness of `viewing_duration` (an optional float):
`None` and `0.0` are falsy. -/
def pyTruthyQ (q : Option Rat) : Bool :=
  match q with
  | none => false
  | some d => d ≠ 0

/-- Embedding of `VideoPlayer.stop_video` (src/pawvision/video_player.py,
lines 385-426).  A statistics manager is assumed attached.  When the process
handle is dead (`poll()` not `None`) the guard fails and the method returns
`False` without touching any state.  Note lines 419-422: the timeout thread
is *not* cancelled; the source relies on the liveness check inside
`_stop_after_timeout`. -/
def stop_video (st : PlayerState) (now : Rat) (reason : String) : StopResult :=
  if is_playing st then
    let viewing_duration : Option Rat := st.video_start_time.map (fun t0 => now - t0)
    let ev : Option ViewingEvent :=
      if pyTruthyStr st.current_video && pyTruthyQ viewing_duration then
        match st.current_video, viewing_duration with
        | some v, some d => some ⟨v, d, reason⟩
        | _, _ => none
      else none
    { stopped := true
      state := { current_process := some false
                 current_video := none
                 last_playback_end := some now
                 video_start_time := none
                 monitor_on := false }
      event := ev }
  else
    { stopped := false, state := st, event := none }

/-- Embedding of `VideoPlayer._stop_after_timeout`
(src/pawvision/video_player.py, lines 537-565), executed when the timeout
thread wakes up at time `now`.  There is no cancellation token: the only
guard is `current_process and current_process.poll() is None`, evaluated
against whatever session state exists when the thread wakes. -/
def stop_after_timeout (st : PlayerState) (now : Rat) : StopResult :=
  if is_playing st then
    let viewing_duration : Option Rat := st.video_start_time.map (fun t0 => now - t0)
    let ev : Option ViewingEvent :=
      if pyTruthyStr st.current_video && pyTruthyQ viewing_duration then
        match st.current_video, viewing_duration with
        | some v, some d => some ⟨v, d, "timeout"⟩
        | _, _ => none
      else none
    { stopped := true
      state := { current_process := some false
                 current_video := none
                 last_playback_end := some now
                 video_start_time := none
                 monitor_on := false }
      event := ev }
  else
    { stopped := false, state := st, event := none }

/-- The start-offset computation of `play_random_video`
(src/pawvision/video_player.py, lines 477-488): given the custom window, the
configured cap (`timeout_sec`) and the sampled `random.uniform(0,
available_duration - timeout_sec)` value, returns
`(start_sec, actual_play_duration)`. -/
def playback_window (custom_start custom_end timeout_sec random_offset : Rat) :
    Rat × Rat :=
  let available_duration := custom_end - custom_start
  if available_duration ≤ timeout_sec then
    -- Play from custom start time for the available duration
    (custom_start, available_duration)
  else
    -- Pick a random start point within the custom range
    (custom_start + random_offset, timeout_sec)

/-- The `mpv` invocation data: `mpv --start=<start_sec> <volume_arg>
--really-quiet <path>` (lines 509-515). -/
structure SpawnInfo where
  start_sec : Rat
  volume_arg : String
  path : String
  deriving Repr, DecidableEq

/-- Outcome of `play_random_video`: return value, state afterwards, the
subprocess spawned (if any), the duration the timeout thread was armed with
(if any), and the `record_video_play` statistics call (if any). -/
structure PlayResult where
  ok : Bool
  state : PlayerState
  spawned : Option SpawnInfo
  timer_armed : Option Rat
  play_event : Option String
  deriving Repr, DecidableEq

/-- The environment of one `play_random_video` call: the wall clock, the
library contents and the two sources of nondeterminism (the `random` module
and the success of `subprocess.Popen`). -/
structure PlayAttempt where
  now : Rat
  now_minutes : Nat
  playable : List VideoEntry
  chosen : VideoEntry
  playback_path : Option String
  random_offset : Rat
  spawn_ok : Bool
  deriving Repr, DecidableEq

/-- Embedding of `VideoPlayer.play_random_video`
(src/pawvision/video_player.py, lines 428-535).  `a.chosen` stands for the
`random.choice(playable_videos)` result, `a.playback_path` for
`_get_playback_path`, `a.random_offset` for the `random.uniform` sample and
`a.spawn_ok` for whether `subprocess.Popen` succeeds.  When `Popen` raises
`OSError`, `current_video` and `video_start_time` have already been assigned
inside the `with self.process_lock` block (lines 507-508), so they stay set;
only the monitor is turned back off before returning `False`. -/
def play_random_video (cfg : Config) (st : PlayerState) (a : PlayAttempt) :
    PlayResult :=
  -- Check if we can start a video (not playing and not in cooldown)
  if !can_start_video cfg st a.now then
    ⟨false, st, none, none, none⟩
  else if a.playable.isEmpty then
    ⟨false, st, none, none, none⟩
  else
    let video_entry := a.chosen
    match a.playback_path with
    | none => ⟨false, st, none, none, none⟩
    | some ppath =>
      match video_entry.duration with
      | none => ⟨false, st, none, none, none⟩  -- effective duration is None
      | some dur =>
        match get_effective_duration video_entry with
        | none => ⟨false, st, none, none, none⟩
        | some effective_duration =>
          if effective_duration ≤ 0 then
            ⟨false, st, none, none, none⟩
          else
            let custom_start := video_entry.custom_start_time
            -- custom_end = video_entry.custom_end_time or video_entry.duration
            let custom_end := pyOrQ video_entry.custom_end_time dur
            let timeout_sec := cfg.playback_duration_minutes * 60
            let window :=
              playback_window custom_start custom_end timeout_sec a.random_offset
            let start_sec := window.1
            let actual_play_duration := window.2
            let volume_arg :=
              if is_night_mode cfg a.now_minutes then "--volume=0"
              else "--volume=" ++ toString cfg.volume
            -- Turn on monitor, then try to start playback
            if a.spawn_ok then
              { ok := true
                state := { current_process := some true
                           current_video := some video_entry.path
                           last_playback_end := st.last_playback_end
                           video_start_time := some a.now
                           monitor_on := true }
                spawned := some ⟨start_sec, volume_arg, ppath⟩
                timer_armed := some actual_play_duration
                play_event := some video_entry.path }
            else
              -- Popen raised OSError: current_video / video_start_time were
              -- already assigned; monitor is turned back off; the old
              -- current_process value is untouched and no timer is started.
              { ok := false
                state := { current_process := st.current_process
                           current_video := some video_entry.path
                           last_playback_end := st.last_playback_end
                           video_start_time := some a.now
                           monitor_on := false }
                spawned := none
                timer_armed := none
                play_event := none }

/-! ## statistics_unified.py — StatisticsManager cooldown gate -/

/-- Embedding of `StatisticsManager._is_button_press_allowed`
(src/pawvision/statistics_unified.py, lines 58-71).  `last_button_press` is
`None` or a timestamp (a `datetime` is always truthy). -/
def is_button_press_allowed (last_button_press : Option Rat)
    (cooldown_seconds : Rat) (now : Rat) : Bool :=
  match last_button_press with
  | none => true
  | some t =>
    let time_since_last := now - t
    if time_since_last < cooldown_seconds then false else true

/-- Embedding of the gate behaviour of `StatisticsManager.record_button_press`
(src/pawvision/statistics_unified.py, lines 78-116): returns whether the press
was recorded, together with the `last_button_press` value afterwards.  When
statistics are disabled it returns `True` without updating anything; when the
press passes the gate (or `force` is set) `last_button_press` is set to `now`
before the event is logged. -/
def record_button_press (enabled : Bool) (last_button_press : Option Rat)
    (cooldown_seconds : Rat) (now : Rat) (force : Bool) :
    Bool × Option Rat :=
  if !enabled then (true, last_button_press)
  else if !force && !is_button_press_allowed last_button_press cooldown_seconds now then
    (false, last_button_press)
  else
    (true, some now)

/-! ## main.py — how PawVisionApp.initialize builds the StatisticsManager -/

/-- The constructor state of `StatisticsManager.__init__(self, db_path,
enabled=True, cooldown_seconds=60, legacy_json_file=None)`
(src/pawvision/statistics_unified.py, lines 14-21).  `enabled` keeps the
Python truthiness of the value bound to that parameter; `cooldown_seconds`
its numeric value. -/
structure SMState where
  db_path : String
  enabled : Bool
  cooldown_seconds : Rat
  deriving Repr, DecidableEq

/-- Embedding of the `StatisticsManager(...)` call in
`PawVisionApp.initialize` (src/pawvision/main.py, lines 85-90).  The call
passes four POSITIONAL arguments `(database_path, statistics_file,
enable_statistics, button_cooldown_seconds)` against the signature
`(db_path, enabled, cooldown_seconds, legacy_json_file)`: the `enabled` slot
receives the statistics file name (truthy whenever non-empty) and the
`cooldown_seconds` slot receives the boolean `enable_statistics`, which
Python's numeric comparison `time_since_last < self.cooldown_seconds` treats
as `1` when `True` and `0` when `False`.  The configured
`button_cooldown_seconds` lands in the unused `legacy_json_file` slot. -/
def app_statistics_manager (database_path statistics_file : String)
    (enable_statistics : Bool) (button_cooldown_seconds : Rat) : SMState :=
  { db_path := database_path
    enabled := statistics_file ≠ ""
    cooldown_seconds := if enable_statistics then 1 else 0 }

/-! ## gpio_handler.py — ButtonHandler -/

/-- The parameter names of `StatisticsManager.record_button_press`
(src/pawvision/statistics_unified.py, lines 78-79). -/
def record_button_press_params : List String :=
  ["action", "duration", "video_file", "force", "is_interruption"]

/-- Whether a Python call whose keyword-argument names are `kwargs` binds
against a function with parameter list `params`; an unknown keyword raises
`TypeError` at call time. -/
def call_kwargs_ok (params : List String) (kwargs : List String) : Bool :=
  kwargs.all (fun k => params.contains k)

/-- The observable outcome of `ButtonHandler._handle_button_press`. -/
inductive ButtonAction where
  | ignored_schedule
  | ignored_policy
  | stopped
  | stop_blocked
  | started
  | start_blocked
  deriving Repr, DecidableEq

/-- Embedding of `ButtonHandler._handle_button_press`
(src/pawvision/gpio_handler.py, lines 75-120).  The stop branch calls
`record_button_press(self.config.button_cooldown_seconds,
video_path=current_video, is_interruption=True)` and the play branch calls
`record_button_press(self.config.button_cooldown_seconds,
is_interruption=False)`; each call is modelled by first binding its keyword
names against the real parameter list (an unknown keyword raises `TypeError`
out of the handler before anything else happens) and, if binding succeeds,
by the gate verdict `gate_allows`. -/
def handle_button_press (allowed_by_schedule playing second_press_stops
    stats_present gate_allows : Bool) : Except String ButtonAction :=
  if !allowed_by_schedule then
    .ok .ignored_schedule
  else if playing then
    if second_press_stops then
      if stats_present then
        if call_kwargs_ok record_button_press_params
            ["video_path", "is_interruption"] then
          if gate_allows then .ok .stopped else .ok .stop_blocked
        else
          .error "TypeError: record_button_press got an unexpected keyword argument video_path"
      else .ok .stopped
    else .ok .ignored_policy
  else
    if stats_present then
      if call_kwargs_ok record_button_press_params ["is_interruption"] then
        if gate_allows then .ok .started else .ok .start_blocked
      else
        .error "TypeError"
    else .ok .started

/-! ## Shared concrete inputs for witnesses and counterexamples -/

/-- The config.py defaults: 30 min cap, 5 min post-playback cooldown,
volume 50, night mode 22:00-06:00 (1320 and 360 minutes). -/
def exCfg : Config := ⟨30, 5, 50, some 1320, some 360⟩

/-- A player that has never spawned a process. -/
def exIdle : PlayerState := ⟨none, none, none, none, false⟩

/-- A 60-second local video with no custom window. -/
def exEntry : VideoEntry := ⟨"a.mp4", 0, none, some 60⟩

/-- A successful playback attempt at 23:00 (minute 1380), inside the default
22:00-06:00 night window. -/
def exNightAttempt : PlayAttempt :=
  ⟨1000, 1380, [exEntry], exEntry, some "a.mp4", 0, true⟩

/-- A config with a 30-second play cap (0.5 minutes) and no post-playback
cooldown, so a second session can start while the first session's timeout
thread is still pending. -/
def c2Cfg : Config := ⟨1/2, 0, 50, none, none⟩

/-- First session's 120-second video. -/
def c2First : VideoEntry := ⟨"first.mp4", 0, none, some 120⟩

/-- Second session's 120-second video. -/
def c2Second : VideoEntry := ⟨"second.mp4", 0, none, some 120⟩

/-- Session 1 starts at t = 0 (random offset 0, spawn succeeds). -/
def c2A1 : PlayAttempt := ⟨0, 720, [c2First], c2First, some "first.mp4", 0, true⟩

/-- Session 2 starts at t = 15. -/
def c2A2 : PlayAttempt := ⟨15, 720, [c2Second], c2Second, some "second.mp4", 0, true⟩

/-- State after session 1 starts at t = 0. -/
def c2S1 : PlayerState := (play_random_video c2Cfg exIdle c2A1).state

/-- State after the manual stop of session 1 at t = 10. -/
def c2S2 : PlayerState := (stop_video c2S1 10 "manual").state

/-- State after session 2 starts at t = 15. -/
def c2S3 : PlayerState := (play_random_video c2Cfg c2S2 c2A2).state

/-- The statistics manager as `PawVisionApp.initialize` actually builds it
with the production defaults and `button_cooldown_seconds = 60`. -/
def c4SM : SMState :=
  app_statistics_manager "/home/pi/pawvision.db" "/home/pi/pawvision_stats.json"
    true 60

/-! ## Theorems -/

/-- C9: `is_time_in_range` returns `false` whenever either bound is unset
(the gated feature is off); for `start < end` it accepts exactly
`start ≤ now < end`; for `start ≥ end` the range wraps midnight and it
accepts exactly `now ≥ start ∨ now < end`. -/
theorem C9_is_time_in_range_spec (s e : Option Nat) (now : Nat) :
    ((s = none ∨ e = none) → is_time_in_range s e now = false) ∧
    (∀ sv ev, s = some sv → e = some ev →
      ((sv < ev → (is_time_in_range s e now = true ↔ sv ≤ now ∧ now < ev)) ∧
       (ev ≤ sv → (is_time_in_range s e now = true ↔ now ≥ sv ∨ now < ev)))) := by
  constructor
  · rintro (rfl | rfl)
    · cases e <;> rfl
    · cases s <;> rfl
  · rintro sv ev rfl rfl
    constructor
    · intro hlt
      simp only [is_time_in_range, if_pos hlt, Bool.and_eq_true, decide_eq_true_eq]
    · intro hle
      simp only [is_time_in_range, if_neg (not_lt.mpr hle), Bool.or_eq_true,
        decide_eq_true_eq]

/-- Witness for C9: minute 30 (00:30) lies inside the wrapped window
22:00-06:00, and an unset start bound disables the check. -/
theorem C9_witness :
    is_time_in_range (some 1320) (some 360) 30 = true ∧
    is_time_in_range none (some 360) 30 = false := by
  constructor
  · exact (((C9_is_time_in_range_spec (some 1320) (some 360) 30).2 1320 360 rfl
      rfl).2 (by decide)).mpr (by decide)
  · exact (C9_is_time_in_range_spec none (some 360) 30).1 (Or.inl rfl)

/-- C10: for a `VideoEntry` with known duration `d ≥ 0`,
`get_effective_duration` returns some `eff` with `0 ≤ eff ≤ d`, computed from
the clamped window `[max 0 custom_start, min d end]`; an inverted clamped
window yields `0`, and `custom_end_time = 0` is treated exactly as no custom
end. -/
theorem C10_effective_duration_bounds (v : VideoEntry) (d : Rat)
    (hd : v.duration = some d) (h0 : 0 ≤ d) :
    ∃ eff, get_effective_duration v = some eff ∧ 0 ≤ eff ∧ eff ≤ d ∧
      (min d (pyOrQ v.custom_end_time d) ≤ max 0 v.custom_start_time → eff = 0) ∧
      (v.custom_end_time = some 0 →
        get_effective_duration v =
          get_effective_duration { v with custom_end_time := none }) := by
  have hend0 : v.custom_end_time = some 0 →
      get_effective_duration v =
        get_effective_duration { v with custom_end_time := none } := by
    intro h00
    simp [get_effective_duration, pyOrQ, hd, h00]
  have hcore : get_effective_duration v =
      (if min d (pyOrQ v.custom_end_time d) ≤ max 0 v.custom_start_time then
        some 0
       else
        some (min d (pyOrQ v.custom_end_time d) - max 0 v.custom_start_time)) := by
    simp only [get_effective_duration, hd]
  by_cases hc : min d (pyOrQ v.custom_end_time d) ≤ max 0 v.custom_start_time
  · exact ⟨0, by rw [hcore, if_pos hc], le_refl 0, h0, fun _ => rfl, hend0⟩
  · push_neg at hc
    refine ⟨min d (pyOrQ v.custom_end_time d) - max 0 v.custom_start_time,
      by rw [hcore, if_neg (not_le.mpr hc)], ?_, ?_,
      fun hle => absurd hle (not_le.mpr hc), hend0⟩
    · exact sub_nonneg.mpr hc.le
    · have h1 : min d (pyOrQ v.custom_end_time d) ≤ d := min_le_left _ _
      have h2 : (0 : Rat) ≤ max 0 v.custom_start_time := le_max_left 0 _
      linarith

/-- Witness for C10: a 60 s video with window 10..200 clamps the end to 60
and yields effective duration 50. -/
theorem C10_witness :
    ∃ eff, get_effective_duration ⟨"b.mp4", 10, some 200, some 60⟩ = some eff ∧
      0 ≤ eff ∧ eff ≤ 60 ∧
      (min 60 (pyOrQ (some 200) 60) ≤
        max 0 (VideoEntry.custom_start_time ⟨"b.mp4", 10, some 200, some 60⟩) →
        eff = 0) ∧
      ((some 200 : Option Rat) = some 0 →
        get_effective_duration ⟨"b.mp4", 10, some 200, some 60⟩ =
          get_effective_duration ⟨"b.mp4", 10, none, some 60⟩) :=
  C10_effective_duration_bounds ⟨"b.mp4", 10, some 200, some 60⟩ 60 rfl
    (by norm_num)

/-- C3: the start-offset computation of `play_random_video`: if
`available ≤ cap` then `(customStart, available)`, otherwise
`(customStart + r, cap)` with `r` the `uniform(0, available - cap)` sample;
in every case `customStart ≤ startOffset` and
`startOffset + plannedDuration ≤ customEnd`. -/
theorem C3_start_offset_bounds (custom_start custom_end timeout_sec r : Rat)
    (hr0 : 0 ≤ r)
    (hr1 : timeout_sec < custom_end - custom_start →
      r ≤ custom_end - custom_start - timeout_sec) :
    (if custom_end - custom_start ≤ timeout_sec then
      playback_window custom_start custom_end timeout_sec r =
        (custom_start, custom_end - custom_start)
     else
      playback_window custom_start custom_end timeout_sec r =
        (custom_start + r, timeout_sec)) ∧
    custom_start ≤ (playback_window custom_start custom_end timeout_sec r).1 ∧
    (playback_window custom_start custom_end timeout_sec r).1 +
      (playback_window custom_start custom_end timeout_sec r).2 ≤ custom_end := by
  by_cases h : custom_end - custom_start ≤ timeout_sec
  · have hw : playback_window custom_start custom_end timeout_sec r =
        (custom_start, custom_end - custom_start) := by
      simp [playback_window, h]
    rw [if_pos h, hw]
    refine ⟨rfl, ?_, ?_⟩
    · show custom_start ≤ custom_start
      exact le_refl _
    · show custom_start + (custom_end - custom_start) ≤ custom_end
      linarith
  · have hr2 := hr1 (not_le.mp h)
    have hw : playback_window custom_start custom_end timeout_sec r =
        (custom_start + r, timeout_sec) := by
      simp [playback_window, h]
    rw [if_neg h, hw]
    refine ⟨rfl, ?_, ?_⟩
    · show custom_start ≤ custom_start + r
      linarith
    · show custom_start + r + timeout_sec ≤ custom_end
      linarith

/-- Witness for C3: the spec example `customStart = 10`, `customEnd = 100`,
`cap = 30` with the extreme sample `r = 60` gives start offset 70 and keeps
both bounds. -/
theorem C3_witness :
    (10 : Rat) ≤ (playback_window 10 100 30 60).1 ∧
    (playback_window 10 100 30 60).1 + (playback_window 10 100 30 60).2 ≤ 100 :=
  ⟨(C3_start_offset_bounds 10 100 30 60 (by norm_num)
      (fun _ => by norm_num)).2.1,
   (C3_start_offset_bounds 10 100 30 60 (by norm_num)
      (fun _ => by norm_num)).2.2⟩

/-- C1: a `play_random_video` call made while a session is active (the
spawned process is alive) or while the post-playback cooldown has not elapsed
returns `False`, spawns no subprocess, arms no timer and leaves the whole
session state unchanged. -/
theorem C1_reject_while_active_or_cooldown (cfg : Config) (st : PlayerState)
    (a : PlayAttempt)
    (h : is_playing st = true ∨ is_in_cooldown cfg st a.now = true) :
    play_random_video cfg st a = ⟨false, st, none, none, none⟩ := by
  have hcs : can_start_video cfg st a.now = false := by
    rcases h with h | h <;> simp [can_start_video, h]
  simp [play_random_video, hcs]

/-- Witness for C1: a player with a live process handle rejects the request
and nothing changes. -/
theorem C1_witness :
    play_random_video exCfg ⟨some true, some "a.mp4", none, some 0, true⟩
      ⟨10, 600, [exEntry], exEntry, some "a.mp4", 0, true⟩ =
      ⟨false, ⟨some true, some "a.mp4", none, some 0, true⟩, none, none, none⟩ :=
  C1_reject_while_active_or_cooldown exCfg
    ⟨some true, some "a.mp4", none, some 0, true⟩
    ⟨10, 600, [exEntry], exEntry, some "a.mp4", 0, true⟩ (Or.inl rfl)

/-- C6 counterexample: a dead subprocess handle (`poll()` returned an exit
code) makes `stop_video` return `False` while leaving the entire session
state in place and recording nothing — in particular no viewing event with
`end_reason = crashed`, contrary to the claimed crash cleanup. -/
theorem C6_counterexample :
    stop_video ⟨some false, some "a.mp4", some 100, some 90, true⟩ 120 "manual" =
      ⟨false, ⟨some false, some "a.mp4", some 100, some 90, true⟩, none⟩ := by
  decide

/-- C6 amended: the dead handle is only observed (polled): `stop_video`
returns `False`, changes no state and records no event, and `is_playing`
reports `false` so the next `play_random_video` is not blocked by the dead
handle; no `crashed` end reason exists anywhere in the code. -/
theorem C6_dead_handle_not_cleaned (st : PlayerState) (now : Rat)
    (reason : String) (h : st.current_process = some false) :
    stop_video st now reason = ⟨false, st, none⟩ ∧ is_playing st = false := by
  have hp : is_playing st = false := by simp [is_playing, h]
  exact ⟨by simp [stop_video, hp], hp⟩

/-- Witness for C6. -/
theorem C6_witness :
    stop_video ⟨some false, none, none, none, false⟩ 5 "manual" =
      ⟨false, ⟨some false, none, none, none, false⟩, none⟩ ∧
    is_playing ⟨some false, none, none, none, false⟩ = false :=
  C6_dead_handle_not_cleaned ⟨some false, none, none, none, false⟩ 5 "manual" rfl

/-- C7 counterexample: a spawn failure on an idle player returns `False` and
turns the monitor off, but leaves `current_video` and `video_start_time` set
to the failed attempt values — the claim asserts no recorded current video or
start time remains. -/
theorem C7_counterexample :
    (play_random_video exCfg exIdle
      ⟨1000, 600, [exEntry], exEntry, some "a.mp4", 0, false⟩).ok = false ∧
    (play_random_video exCfg exIdle
      ⟨1000, 600, [exEntry], exEntry, some "a.mp4", 0, false⟩).state.current_video =
      some "a.mp4" ∧
    (play_random_video exCfg exIdle
      ⟨1000, 600, [exEntry], exEntry, some "a.mp4", 0, false⟩).state.video_start_time =
      some 1000 := by
  refine ⟨?_, ?_, ?_⟩ <;>
    norm_num [play_random_video, can_start_video, is_playing, is_in_cooldown,
      get_effective_duration, pyOrQ, playback_window, exCfg, exIdle, exEntry]

/-- C7 amended: when every guard passes and `subprocess.Popen` fails,
`play_random_video` returns `False`, turns the monitor off, spawns nothing,
arms no timer, leaves the process handle unchanged (so `is_playing` stays
`false` — effectively `Idle`), but `current_video` and `video_start_time`
remain set to the failed attempt's values. -/
theorem C7_spawn_failure_state (cfg : Config) (st : PlayerState)
    (a : PlayAttempt) (p : String) (d eff : Rat)
    (hcan : can_start_video cfg st a.now = true)
    (hne : a.playable.isEmpty = false)
    (hpath : a.playback_path = some p)
    (hdur : a.chosen.duration = some d)
    (heff : get_effective_duration a.chosen = some eff)
    (hpos : ¬eff ≤ 0)
    (hspawn : a.spawn_ok = false) :
    play_random_video cfg st a =
      ⟨false,
       ⟨st.current_process, some a.chosen.path, st.last_playback_end,
        some a.now, false⟩,
       none, none, none⟩ ∧
    is_playing (play_random_video cfg st a).state = false := by
  have hplay : is_playing st = false := by
    have h1 := (Bool.and_eq_true _ _).mp hcan
    simpa using h1.1
  have hmain : play_random_video cfg st a =
      ⟨false,
       ⟨st.current_process, some a.chosen.path, st.last_playback_end,
        some a.now, false⟩,
       none, none, none⟩ := by
    simp [play_random_video, hcan, hne, hpath, hdur, heff, hpos, hspawn]
  refine ⟨hmain, ?_⟩
  rw [hmain]
  exact hplay

/-- Witness for C7: the concrete spawn-failure run of the counterexample,
obtained through the amended theorem. -/
theorem C7_witness :
    play_random_video exCfg exIdle
      ⟨1000, 600, [exEntry], exEntry, some "a.mp4", 0, false⟩ =
      ⟨false, ⟨none, some "a.mp4", none, some 1000, false⟩, none, none, none⟩ ∧
    is_playing (play_random_video exCfg exIdle
      ⟨1000, 600, [exEntry], exEntry, some "a.mp4", 0, false⟩).state = false :=
  C7_spawn_failure_state exCfg exIdle
    ⟨1000, 600, [exEntry], exEntry, some "a.mp4", 0, false⟩ "a.mp4" 60 60
    (by norm_num [can_start_video, is_playing, is_in_cooldown, exCfg, exIdle])
    rfl rfl rfl
    (by norm_num [get_effective_duration, pyOrQ, exEntry]) (by norm_num) rfl

/-- C8: whenever `play_random_video` actually spawns the media player, the
volume argument is `--volume=0` if the wall clock lies inside the configured
night-mode window at that moment, and `--volume=<configured>` otherwise. -/
theorem C8_night_mode_mutes (cfg : Config) (st : PlayerState) (a : PlayAttempt)
    (info : SpawnInfo)
    (h : (play_random_video cfg st a).spawned = some info) :
    info.volume_arg =
      if is_night_mode cfg a.now_minutes then "--volume=0"
      else "--volume=" ++ toString cfg.volume := by
  unfold play_random_video at h
  repeat' split at h
  all_goals try simp_all
  all_goals
    rcases hdur : a.chosen.duration with _ | dur <;> rw [hdur] at h <;>
      try simp_all
  all_goals
    rcases heff : get_effective_duration a.chosen with _ | eff <;>
      rw [heff] at h <;> try simp_all
  all_goals split at h
  all_goals try simp_all
  all_goals (cases h; rfl)

/-- Witness for C8: the spawn at 23:00 is muted although volume 50 is
configured. -/
theorem C8_witness :
    (⟨0, "--volume=0", "a.mp4"⟩ : SpawnInfo).volume_arg = "--volume=0" := by
  have h := C8_night_mode_mutes exCfg exIdle exNightAttempt
    ⟨0, "--volume=0", "a.mp4"⟩
    (by norm_num [play_random_video, can_start_video, is_playing,
      is_in_cooldown, get_effective_duration, pyOrQ, playback_window,
      is_night_mode, is_time_in_range, exCfg, exIdle, exEntry, exNightAttempt])
  rw [h]
  norm_num [is_night_mode, is_time_in_range, exCfg, exNightAttempt]

/-- C2: the trace refuting the cancellation claim.  Session 1 (planned 30 s)
starts at t = 0 and is manually stopped at t = 10, leaving its timeout thread
pending until t = 30.  Session 2 starts at t = 15.  When the expired session-1
timer wakes at t = 30, its only guard — `poll()` — sees session 2's live
process, so it terminates that process and records a second viewing event
against session 2 (`second.mp4`, 15 s, `timeout`): the stopped session's
timer does act on a session started later. -/
theorem C2_expired_timer_hits_later_session :
    (play_random_video c2Cfg exIdle c2A1).timer_armed = some 30 ∧
    stop_video c2S1 10 "manual" =
      ⟨true, c2S2, some ⟨"first.mp4", 10, "manual"⟩⟩ ∧
    (play_random_video c2Cfg c2S2 c2A2).ok = true ∧
    stop_after_timeout c2S3 30 =
      ⟨true, ⟨some false, none, some 30, none, false⟩,
       some ⟨"second.mp4", 15, "timeout"⟩⟩ := by
  refine ⟨?_, ?_, ?_, ?_⟩ <;>
    (norm_num [play_random_video, stop_video, stop_after_timeout,
      can_start_video, is_playing, is_in_cooldown, get_effective_duration,
      pyOrQ, playback_window, pyTruthyStr, pyTruthyQ, is_night_mode,
      is_time_in_range, c2Cfg, c2First, c2Second, c2A1, c2A2, c2S1, c2S2,
      c2S3, exIdle] <;>
     try (intro hx; exact absurd hx (by decide)))

/-- C4: because `main.py` passes its four arguments positionally into
`StatisticsManager.__init__(db_path, enabled, cooldown_seconds,
legacy_json_file)`, the gate runs with `cooldown_seconds = True` (numerically
1) instead of the configured 60: a first press at t = 0 is accepted, and a
second press only 10 s later is accepted as well, where the claim requires it
to be rejected. -/
theorem C4_wiring_defeats_button_cooldown :
    c4SM.cooldown_seconds = 1 ∧
    record_button_press c4SM.enabled none c4SM.cooldown_seconds 0 false =
      (true, some 0) ∧
    (record_button_press c4SM.enabled (some 0) c4SM.cooldown_seconds 10
      false).1 = true := by
  have hen : c4SM.enabled = true := by
    norm_num [c4SM, app_statistics_manager]
    decide
  have hcd : c4SM.cooldown_seconds = 1 := by
    norm_num [c4SM, app_statistics_manager]
  refine ⟨hcd, ?_, ?_⟩
  · rw [hen, hcd]
    norm_num [record_button_press, is_button_press_allowed]
  · rw [hen, hcd]
    norm_num [record_button_press, is_button_press_allowed]

/-- Context for C4: the gate logic itself, run with an actual cooldown of
60 s, behaves exactly as the claim demands — always allow with no prior
press, otherwise allow iff 60 s have elapsed, updating the timestamp on
allow.  Only the wiring in `main.py` prevents the configured value from
reaching it. -/
theorem record_button_press_gate_correct (last : Option Rat) (now : Rat) :
    (last = none →
      record_button_press true last 60 now false = (true, some now)) ∧
    (∀ t, last = some t →
      (now - t < 60 → record_button_press true last 60 now false =
        (false, some t)) ∧
      (60 ≤ now - t → record_button_press true last 60 now false =
        (true, some now))) := by
  constructor
  · rintro rfl
    simp [record_button_press, is_button_press_allowed]
  · rintro t rfl
    constructor
    · intro hlt
      simp [record_button_press, is_button_press_allowed, hlt]
    · intro hge
      simp [record_button_press, is_button_press_allowed, not_lt.mpr hge]

/-! ## C5: the button handler's stop path -/

/-- C5: a physical press while a video plays, with `second_press_stops`
enabled and a statistics manager attached, raises `TypeError` out of
`_handle_button_press` — `record_button_press` has no parameter named
`video_path` — so `stop_video` is never reached, whichever way the cooldown
gate would have decided. -/
theorem C5_stop_path_raises_type_error (gate_allows : Bool) :
    handle_button_press true true true true gate_allows =
      .error "TypeError: record_button_press got an unexpected keyword argument video_path" := by
  cases gate_allows <;> rfl

end PawVision
